import Mathlib

/-!
Verification development for the kurobako-go solver runner (solver.go):
the line-oriented protocol dispatcher and solver-instance registry.
Definitions are a shallow embedding of the Go source; the trial id
generator and the opaque payload types live outside the embedded file
and are modelled from the specification where noted.
-/

/-- Modelled from the spec: `Capabilities` (defined outside solver.go) is a
set of named boolean flags, never branched on inside this core; only the
distinguished value `AllCapabilities` is needed here, so the flags are kept
opaque behind a single marker. -/
structure Capabilities where
  allFlags : Bool
deriving DecidableEq

/-- Modelled from the spec: the default value representing all known
capabilities. -/
def AllCapabilities : Capabilities := ⟨true⟩

/-- Embeds `SolverSpec` from solver.go: name, free-form attributes,
declared capabilities. -/
structure SolverSpec where
  name : String
  attrs : List (String × String)
  capabilities : Capabilities
deriving DecidableEq

/-- Embeds `NewSolverSpec` from solver.go: empty attributes and
`AllCapabilities`. -/
def NewSolverSpec (name : String) : SolverSpec :=
  ⟨name, [], AllCapabilities⟩

/-- Modelled from the spec: `ProblemSpec` (defined outside solver.go) is an
opaque payload passed through to the factory, never introspected here. -/
structure ProblemSpec where
  payload : String
deriving DecidableEq

/-- Modelled from the spec: `EvaluatedTrial` (defined outside solver.go) is
an opaque payload representing a previously proposed trial annotated with
its observed outcome. -/
structure EvaluatedTrial where
  payload : String
deriving DecidableEq

/-- Modelled from the spec: `NextTrial` (defined outside solver.go) is a
newly proposed trial: parameters (kept opaque) plus an assigned id. -/
structure NextTrial where
  id : Nat
  payload : String
deriving DecidableEq

/-- Modelled from the spec: `TrialIdGenerator` (defined outside solver.go)
is a single mutable unsigned 64-bit counter `next_id`, initialized per
ask-call from the caller-supplied value. -/
structure TrialIdGenerator where
  nextId : Nat
deriving DecidableEq

/-- Modelled from the spec: each id request returns the current counter
value and advances the counter by one (unsigned 64-bit arithmetic). -/
def TrialIdGenerator.generate (g : TrialIdGenerator) : Nat × TrialIdGenerator :=
  (g.nextId, ⟨(g.nextId + 1) % 2 ^ 64⟩)

/-- The generator state after minting one id. -/
def genStep (g : TrialIdGenerator) : TrialIdGenerator :=
  (g.generate).2

/-- Embeds the `Solver` interface from solver.go: `Ask` takes the id
generator (passed by pointer in Go, so its final state is returned
alongside the result) and `Tell` records an evaluated trial. -/
structure Solver where
  ask : TrialIdGenerator → Except String NextTrial × TrialIdGenerator
  tell : EvaluatedTrial → Except String Unit

/-- Embeds the `SolverFactory` interface from solver.go. `Specification`
is required by the spec to be pure/idempotent, so it is a constant. -/
structure SolverFactory where
  specification : Except String SolverSpec
  createSolver : Int → ProblemSpec → Except String Solver

/-- The registry `solvers map[uint64]Solver` of `SolverRunner`. -/
abbrev Registry := Nat → Option Solver

/-- The empty registry, as installed at the top of `Run`. -/
def emptyRegistry : Registry := fun _ => none

/-- Go map insertion `r.solvers[id] = solver`: last write wins. -/
def insertSolver (reg : Registry) (id : Nat) (s : Solver) : Registry :=
  fun k => if k = id then some s else reg k

/-- Go built-in `delete(r.solvers, id)`: removes the entry if present. -/
def dropSolver (reg : Registry) (id : Nat) : Registry :=
  fun k => if k = id then none else reg k

/-- Go `int64(u)` applied to a decoded `uint64`: reinterpret the value
mod 2^64 as a two's-complement signed 64-bit integer. -/
def int64OfUInt64 (n : Nat) : Int :=
  if n % 2 ^ 64 < 2 ^ 63 then ((n % 2 ^ 64 : Nat) : Int)
  else ((n % 2 ^ 64 : Nat) : Int) - 2 ^ 64

/-- One decoded input line. The Go code first unmarshals each line into a
generic object and branches on the `type` field; `unknown` is a valid JSON
object whose discriminant is none of the four known ones, and `malformed`
is a line that fails the generic unmarshal. -/
inductive Line where
  | createSolverCast (solverId : Nat) (randomSeed : Nat) (problem : ProblemSpec)
  | dropSolverCast (solverId : Nat)
  | askCall (solverId : Nat) (nextTrialId : Nat)
  | tellCall (solverId : Nat) (trial : EvaluatedTrial)
  | unknown (typeName : String)
  | malformed
deriving DecidableEq

/-- One outbound JSON line, as produced by `sendMessage`. -/
inductive OutMsg where
  | solverSpecCast (spec : SolverSpec)
  | askReply (trial : NextTrial) (nextTrialId : Nat)
  | tellReply
deriving DecidableEq

/-- The observable I/O trace of a run: reads from stdin interleaved with
writes to stdout, in temporal order. -/
inductive Event where
  | read (line : Line)
  | write (msg : OutMsg)
deriving DecidableEq

/-- How a handler (or the whole run) ends: a normal return carrying the
registry, a returned Go `error`, or a Go runtime panic. -/
inductive Outcome (α : Type) where
  | ok : α → Outcome α
  | error : String → Outcome α
  | panicked : String → Outcome α
deriving DecidableEq

/-- The Go runtime error produced by calling a method on a nil interface
value, which is what `r.solvers[id]` yields for an absent id. -/
def nilDeref : String :=
  "runtime error: invalid memory address or nil pointer dereference"

/-- Embeds `SolverRunner.handleTellCall`: looks the id up in the map (a
miss yields the nil interface, so the subsequent method call panics),
invokes `Tell`, and on success sends a `TELL_REPLY`. -/
def handleTellCall (reg : Registry) (solverId : Nat) (trial : EvaluatedTrial) :
    Outcome Registry × List OutMsg :=
  match reg solverId with
  | none => (Outcome.panicked nilDeref, [])
  | some solver =>
    match solver.tell trial with
    | Except.error e => (Outcome.error e, [])
    | Except.ok _ => (Outcome.ok reg, [OutMsg.tellReply])

/-- Embeds `SolverRunner.handleAskCall`: builds a generator seeded at
`next_trial_id`, looks the id up in the map (a miss yields the nil
interface, so the `Ask` call panics), and on success replies with the
produced trial and the generator's final counter. -/
def handleAskCall (reg : Registry) (solverId : Nat) (nextTrialId : Nat) :
    Outcome Registry × List OutMsg :=
  match reg solverId with
  | none => (Outcome.panicked nilDeref, [])
  | some solver =>
    match solver.ask ⟨nextTrialId⟩ with
    | (Except.error e, _) => (Outcome.error e, [])
    | (Except.ok trial, idg2) =>
      (Outcome.ok reg, [OutMsg.askReply trial idg2.nextId])

/-- Embeds `SolverRunner.handleDropSolverCast`: deletes the entry and
returns nil; no reply. -/
def handleDropSolverCast (reg : Registry) (solverId : Nat) :
    Outcome Registry × List OutMsg :=
  (Outcome.ok (dropSolver reg solverId), [])

/-- Embeds `SolverRunner.handleCreateSolverCast`: converts the decoded
`uint64` seed with `int64(...)`, asks the factory for a solver, and on
success stores it under the id (overwriting any prior entry); no reply. -/
def handleCreateSolverCast (f : SolverFactory) (reg : Registry)
    (solverId : Nat) (randomSeed : Nat) (problem : ProblemSpec) :
    Outcome Registry × List OutMsg :=
  match f.createSolver (int64OfUInt64 randomSeed) problem with
  | Except.error e => (Outcome.error e, [])
  | Except.ok s => (Outcome.ok (insertSolver reg solverId s), [])

/-- Embeds `SolverRunner.runOnce`: `none` is `readLine` returning EOF
(`(false, nil)` in Go); otherwise decode and dispatch on the `type`
discriminant, returning `true` together with the handler's result for the
four known kinds and `(false, error)` for anything else. -/
def runOnce (f : SolverFactory) (reg : Registry) :
    Option Line → Bool × Outcome Registry × List OutMsg
  | none => (false, Outcome.ok reg, [])
  | some (Line.createSolverCast sid seed prob) =>
    (true, handleCreateSolverCast f reg sid seed prob)
  | some (Line.dropSolverCast sid) =>
    (true, handleDropSolverCast reg sid)
  | some (Line.askCall sid n) =>
    (true, handleAskCall reg sid n)
  | some (Line.tellCall sid t) =>
    (true, handleTellCall reg sid t)
  | some (Line.unknown t) =>
    (false, Outcome.error ("unknown message type: " ++ t), [])
  | some Line.malformed =>
    (false, Outcome.error "invalid character in message", [])

/-- The `for` loop of `SolverRunner.Run`, with the input stream as a list
of lines (the list's end is EOF). Produces the event trace, the final
registry, and the loop's outcome. A handler error stops the loop and is
returned from `Run`; a panic aborts immediately. -/
def runLoop (f : SolverFactory) : Registry → List Line →
    List Event × Registry × Outcome Unit
  | reg, [] => ([], reg, Outcome.ok ())
  | reg, l :: rest =>
    match runOnce f reg (some l) with
    | (doCont, Outcome.ok reg2, outs) =>
      if doCont then
        (Event.read l :: (outs.map Event.write ++ (runLoop f reg2 rest).1),
         (runLoop f reg2 rest).2.1,
         (runLoop f reg2 rest).2.2)
      else
        (Event.read l :: outs.map Event.write, reg2, Outcome.ok ())
    | (_, Outcome.error e, outs) =>
      (Event.read l :: outs.map Event.write, reg, Outcome.error e)
    | (_, Outcome.panicked e, outs) =>
      (Event.read l :: outs.map Event.write, reg, Outcome.panicked e)

/-- Embeds `SolverRunner.Run`: install an empty registry, perform the
one-time `castSolverSpec` handshake (its failure aborts with no output),
then enter the loop. -/
def Run (f : SolverFactory) (lines : List Line) :
    List Event × Registry × Outcome Unit :=
  match f.specification with
  | Except.error e => ([], emptyRegistry, Outcome.error e)
  | Except.ok spec =>
    (Event.write (OutMsg.solverSpecCast spec) :: (runLoop f emptyRegistry lines).1,
     (runLoop f emptyRegistry lines).2.1,
     (runLoop f emptyRegistry lines).2.2)

/-- The sublist of lines read from the input, in order. -/
def readsOf (evs : List Event) : List Line :=
  evs.filterMap fun e =>
    match e with
    | Event.read l => some l
    | Event.write _ => none

/-- A well-behaved sample solver: mints one id per ask and returns it as
the trial's id. -/
def okSolver : Solver where
  ask := fun g => match g.generate with
    | (i, g2) => (Except.ok ⟨i, ""⟩, g2)
  tell := fun _ => Except.ok ()

/-- A solver that fabricates its trial id: it mints one id from the
generator but returns a trial whose id is the constant 999. -/
def rogueSolver : Solver where
  ask := fun g => match g.generate with
    | (_, g2) => (Except.ok ⟨999, "fab"⟩, g2)
  tell := fun _ => Except.ok ()

/-- A solver whose ask and tell operations always fail. -/
def askFailSolver : Solver where
  ask := fun g => (Except.error "boom", g)
  tell := fun _ => Except.error "boom"

/-- A factory built from a bare creation function, with a fixed
specification. -/
def mkFactory (g : Int → ProblemSpec → Except String Solver) : SolverFactory :=
  ⟨Except.ok (NewSolverSpec "model"), g⟩

/-- A factory that always succeeds, producing `okSolver`. -/
def cFactory : SolverFactory :=
  ⟨Except.ok (NewSolverSpec "sol"), fun _ _ => Except.ok okSolver⟩

/-- A factory whose `CreateSolver` always fails. -/
def failFactory : SolverFactory :=
  ⟨Except.ok (NewSolverSpec "f"), fun _ _ => Except.error "create failed"⟩

/-- A sample opaque problem payload. -/
def p0 : ProblemSpec := ⟨""⟩

/-- A sample opaque evaluated-trial payload. -/
def t0 : EvaluatedTrial := ⟨""⟩

@[simp]
theorem readsOf_nil : readsOf [] = [] := rfl

@[simp]
theorem readsOf_cons_read (l : Line) (evs : List Event) :
    readsOf (Event.read l :: evs) = l :: readsOf evs := by
  simp [readsOf]

@[simp]
theorem readsOf_cons_write (m : OutMsg) (evs : List Event) :
    readsOf (Event.write m :: evs) = readsOf evs := by
  simp [readsOf]

@[simp]
theorem readsOf_append (a b : List Event) :
    readsOf (a ++ b) = readsOf a ++ readsOf b := by
  simp [readsOf]

@[simp]
theorem readsOf_map_write (outs : List OutMsg) :
    readsOf (outs.map Event.write) = [] := by
  induction outs with
  | nil => rfl
  | cons m rest ih => simp [readsOf] at ih ⊢

theorem genStep_iterate (k : Nat) : ∀ n : Nat, n + k < 2 ^ 64 →
    genStep^[k] (⟨n⟩ : TrialIdGenerator) = ⟨n + k⟩ := by
  induction k with
  | zero => intro n _; simp
  | succ k ih =>
    intro n h
    have h64 : (2 : Nat) ^ 64 = 18446744073709551616 := by norm_num
    rw [h64] at h
    have h1 : (n + 1) % 2 ^ 64 = n + 1 := Nat.mod_eq_of_lt (by rw [h64]; omega)
    have hs : genStep (⟨n⟩ : TrialIdGenerator) = ⟨n + 1⟩ := by
      simp only [genStep, TrialIdGenerator.generate]
      rw [h1]
    rw [Function.iterate_succ_apply, hs, ih (n + 1) (by rw [h64]; omega)]
    congr 1
    omega

/-- C1: the spec requires an ASK_CALL or TELL_CALL naming a dropped
solver_id to be treated as a registry-miss protocol error with a
descriptive failure, but the code dereferences the nil interface returned
by the map lookup and panics: after CREATE_SOLVER_CAST 1 then
DROP_SOLVER_CAST 1, both ASK_CALL 1 and TELL_CALL 1 end the run in a
runtime panic, not a reported error. -/
theorem c1_registry_miss_panics :
    (Run cFactory [Line.createSolverCast 1 7 p0, Line.dropSolverCast 1,
      Line.askCall 1 0]).2.2 = Outcome.panicked nilDeref ∧
    (Run cFactory [Line.createSolverCast 1 7 p0, Line.dropSolverCast 1,
      Line.tellCall 1 t0]).2.2 = Outcome.panicked nilDeref :=
  ⟨rfl, rfl⟩

/-- C2 counterexample: with a factory whose CreateSolver always fails, the
run terminates at the failing CREATE_SOLVER_CAST and the subsequent
ASK_CALL line is never read, so the failure does not abort only the
triggering create message. -/
theorem c2_create_failure_counterexample :
    (Run failFactory [Line.createSolverCast 1 0 p0, Line.askCall 1 5]).2.2 =
      Outcome.error "create failed" ∧
    (Run failFactory [Line.createSolverCast 1 0 p0, Line.askCall 1 5]).1 =
      [Event.write (OutMsg.solverSpecCast (NewSolverSpec "f")),
       Event.read (Line.createSolverCast 1 0 p0)] ∧
    Event.read (Line.askCall 1 5) ∉
      (Run failFactory [Line.createSolverCast 1 0 p0, Line.askCall 1 5]).1 := by
  refine ⟨rfl, rfl, ?_⟩
  have h : (Run failFactory [Line.createSolverCast 1 0 p0, Line.askCall 1 5]).1 =
      [Event.write (OutMsg.solverSpecCast (NewSolverSpec "f")),
       Event.read (Line.createSolverCast 1 0 p0)] := rfl
  rw [h]
  decide

/-- C2 (amended): when Factory.CreateSolver fails while handling a
CREATE_SOLVER_CAST, no registry entry is inserted for that solver_id and
all existing entries are left unchanged, but the failure terminates the
run with that error: no subsequent input line is processed and no output
is produced. -/
theorem c2_create_failure_amended (f : SolverFactory) (reg : Registry)
    (sid seed : Nat) (prob : ProblemSpec) (rest : List Line) (e : String)
    (h : f.createSolver (int64OfUInt64 seed) prob = Except.error e) :
    runLoop f reg (Line.createSolverCast sid seed prob :: rest) =
      ([Event.read (Line.createSolverCast sid seed prob)], reg,
       Outcome.error e) := by
  simp [runLoop, runOnce, handleCreateSolverCast, h]

/-- C2 witness: the amended statement evaluated on the failing factory. -/
theorem c2_create_failure_witness :
    failFactory.createSolver (int64OfUInt64 3) p0 = Except.error "create failed" ∧
    runLoop failFactory emptyRegistry
        [Line.createSolverCast 1 3 p0, Line.dropSolverCast 9] =
      ([Event.read (Line.createSolverCast 1 3 p0)], emptyRegistry,
       Outcome.error "create failed") :=
  ⟨rfl, c2_create_failure_amended failFactory emptyRegistry 1 3 p0
    [Line.dropSolverCast 9] "create failed" rfl⟩

/-- C3 counterexample: a solver that consumes exactly one id from the
generator seeded at 100 (its final counter is 101) but returns a trial
whose id is the fabricated 999; the handler replies with that trial even
though 999 does not lie in the interval from 100 to 101. -/
theorem c3_ask_reply_counterexample :
    rogueSolver.ask ⟨100⟩ = (Except.ok ⟨999, "fab"⟩, ⟨101⟩) ∧
    handleAskCall (insertSolver emptyRegistry 1 rogueSolver) 1 100 =
      (Outcome.ok (insertSolver emptyRegistry 1 rogueSolver),
       [OutMsg.askReply ⟨999, "fab"⟩ 101]) ∧
    ¬(100 ≤ 999 ∧ 999 < 101) :=
  ⟨rfl, rfl, by decide⟩

/-- C3 (amended): for an ASK_CALL with next_trial_id n on a live solver
whose Ask consumes exactly k ids from the generator, the handler emits
exactly one ASK_REPLY whose next_trial_id equals n + k (provided n + k
fits in 64 bits; the counter wraps mod 2^64 otherwise) and whose trial is
the one Ask returned; the handler does not constrain the returned trial's
id, so its membership in the interval from n to n + k is a contract on the
algorithm, not enforced here. -/
theorem c3_ask_reply_amended (reg : Registry) (sid n k : Nat) (s : Solver)
    (trial : NextTrial)
    (hreg : reg sid = some s)
    (hcons : ∀ g, (s.ask g).2 = genStep^[k] g)
    (hask : (s.ask ⟨n⟩).1 = Except.ok trial)
    (hfit : n + k < 2 ^ 64) :
    handleAskCall reg sid n = (Outcome.ok reg, [OutMsg.askReply trial (n + k)]) := by
  have h2 : s.ask ⟨n⟩ = (Except.ok trial, ⟨n + k⟩) := by
    have hc := hcons ⟨n⟩
    rw [genStep_iterate k n hfit] at hc
    exact Prod.ext hask hc
  simp [handleAskCall, hreg, h2]

/-- C3 witness: the amended statement evaluated on a well-behaved solver
that consumes one id per ask. -/
theorem c3_ask_reply_witness :
    (insertSolver emptyRegistry 1 okSolver) 1 = some okSolver ∧
    (okSolver.ask ⟨10⟩).1 = Except.ok ⟨10, ""⟩ ∧
    handleAskCall (insertSolver emptyRegistry 1 okSolver) 1 10 =
      (Outcome.ok (insertSolver emptyRegistry 1 okSolver),
       [OutMsg.askReply ⟨10, ""⟩ 11]) :=
  ⟨rfl, rfl,
    c3_ask_reply_amended (insertSolver emptyRegistry 1 okSolver) 1 10 1 okSolver
      ⟨10, ""⟩ rfl (fun g => rfl) rfl (by norm_num)⟩

theorem runLoop_no_spec_write (f : SolverFactory) (lines : List Line) :
    ∀ (reg : Registry) (sp : SolverSpec),
      Event.write (OutMsg.solverSpecCast sp) ∉ (runLoop f reg lines).1 := by
  induction lines with
  | nil => intro reg sp; simp [runLoop]
  | cons l rest ih =>
    intro reg sp
    cases l with
    | createSolverCast sid seed prob =>
      cases hc : f.createSolver (int64OfUInt64 seed) prob with
      | error e => simp [runLoop, runOnce, handleCreateSolverCast, hc]
      | ok s =>
        simp [runLoop, runOnce, handleCreateSolverCast, hc]
        exact ih _ _
    | dropSolverCast sid =>
      simp [runLoop, runOnce, handleDropSolverCast]
      exact ih _ _
    | askCall sid n =>
      cases hreg : reg sid with
      | none => simp [runLoop, runOnce, handleAskCall, hreg]
      | some s =>
        cases hask : s.ask ⟨n⟩ with
        | mk res g2 =>
          cases res with
          | error e => simp [runLoop, runOnce, handleAskCall, hreg, hask]
          | ok trial =>
            simp [runLoop, runOnce, handleAskCall, hreg, hask]
            exact ih _ _
    | tellCall sid tr =>
      cases hreg : reg sid with
      | none => simp [runLoop, runOnce, handleTellCall, hreg]
      | some s =>
        cases htell : s.tell tr with
        | error e => simp [runLoop, runOnce, handleTellCall, hreg, htell]
        | ok u =>
          simp [runLoop, runOnce, handleTellCall, hreg, htell]
          exact ih _ _
    | unknown t => simp [runLoop, runOnce]
    | malformed => simp [runLoop, runOnce]

/-- C4: whenever the factory provides its specification, the
SOLVER_SPEC_CAST handshake is the very first event of the run trace (so it
is written before any input line is read or processed), and no later event
of the run writes another SOLVER_SPEC_CAST, for every input stream. -/
theorem c4_handshake_first (f : SolverFactory) (lines : List Line)
    (spec : SolverSpec) (h : f.specification = Except.ok spec) :
    ∃ evs, (Run f lines).1 = Event.write (OutMsg.solverSpecCast spec) :: evs ∧
      ∀ sp, Event.write (OutMsg.solverSpecCast sp) ∉ evs := by
  refine ⟨(runLoop f emptyRegistry lines).1, ?_, ?_⟩
  · simp [Run, h]
  · exact fun sp => runLoop_no_spec_write f lines emptyRegistry sp

/-- C4 witness: the handshake property evaluated on a concrete factory and
a nonempty input stream. -/
theorem c4_handshake_first_witness :
    cFactory.specification = Except.ok (NewSolverSpec "sol") ∧
    ∃ evs, (Run cFactory [Line.dropSolverCast 3]).1 =
        Event.write (OutMsg.solverSpecCast (NewSolverSpec "sol")) :: evs ∧
      ∀ sp, Event.write (OutMsg.solverSpecCast sp) ∉ evs :=
  ⟨rfl, c4_handshake_first cFactory [Line.dropSolverCast 3] (NewSolverSpec "sol") rfl⟩

/-- C5: an input line carrying an unrecognized type discriminant makes the
loop stop with a descriptive error naming the discriminant: the offending
line is read, no reply is written, no further line is read, and the
registry is left as it was. -/
theorem c5_unknown_type_fatal (f : SolverFactory) (reg : Registry)
    (t : String) (rest : List Line) :
    runLoop f reg (Line.unknown t :: rest) =
      ([Event.read (Line.unknown t)], reg,
       Outcome.error ("unknown message type: " ++ t)) := by
  simp [runLoop, runOnce]

/-- C6: end-of-stream is the only path to a clean stop. First conjunct:
reaching the end of the input makes the loop return success with no
events at all (no reply for that read, no additional output, registry
untouched). Second conjunct: if the loop returns success, every input
line was read, i.e. success is only reached by running out of input. -/
theorem c6_eof_clean_stop :
    (∀ (f : SolverFactory) (reg : Registry),
      runLoop f reg [] = ([], reg, Outcome.ok ())) ∧
    (∀ (f : SolverFactory) (lines : List Line) (reg : Registry),
      (runLoop f reg lines).2.2 = Outcome.ok () →
      readsOf (runLoop f reg lines).1 = lines) := by
  constructor
  · intro f reg; rfl
  · intro f lines
    induction lines with
    | nil => intro reg _; simp [runLoop]
    | cons l rest ih =>
      intro reg h
      cases l with
      | createSolverCast sid seed prob =>
        cases hc : f.createSolver (int64OfUInt64 seed) prob with
        | error e => simp [runLoop, runOnce, handleCreateSolverCast, hc] at h
        | ok s =>
          simp [runLoop, runOnce, handleCreateSolverCast, hc] at h ⊢
          exact ih _ h
      | dropSolverCast sid =>
        simp [runLoop, runOnce, handleDropSolverCast] at h ⊢
        exact ih _ h
      | askCall sid n =>
        cases hreg : reg sid with
        | none => simp [runLoop, runOnce, handleAskCall, hreg] at h
        | some s =>
          cases hask : s.ask ⟨n⟩ with
          | mk res g2 =>
            cases res with
            | error e => simp [runLoop, runOnce, handleAskCall, hreg, hask] at h
            | ok trial =>
              simp [runLoop, runOnce, handleAskCall, hreg, hask] at h ⊢
              exact ih _ h
      | tellCall sid tr =>
        cases hreg : reg sid with
        | none => simp [runLoop, runOnce, handleTellCall, hreg] at h
        | some s =>
          cases htell : s.tell tr with
          | error e => simp [runLoop, runOnce, handleTellCall, hreg, htell] at h
          | ok u =>
            simp [runLoop, runOnce, handleTellCall, hreg, htell] at h ⊢
            exact ih _ h
      | unknown t => simp [runLoop, runOnce] at h
      | malformed => simp [runLoop, runOnce] at h

/-- C6 witness: a concrete run that ends in success has read its whole
input. -/
theorem c6_eof_clean_stop_witness :
    (runLoop cFactory emptyRegistry [Line.dropSolverCast 0]).2.2 =
      Outcome.ok () ∧
    readsOf (runLoop cFactory emptyRegistry [Line.dropSolverCast 0]).1 =
      [Line.dropSolverCast 0] :=
  ⟨rfl, c6_eof_clean_stop.2 cFactory [Line.dropSolverCast 0] emptyRegistry rfl⟩

/-- C7: a CREATE_SOLVER_CAST whose solver_id already has a live entry
succeeds silently with last-write-wins semantics: the handler returns
success with no reply, the new instance replaces the old one under that
id, and every other id is untouched. -/
theorem c7_create_overwrites (f : SolverFactory) (reg : Registry)
    (sid seed : Nat) (prob : ProblemSpec) (s1 s2 : Solver)
    (hlive : reg sid = some s1)
    (hnew : f.createSolver (int64OfUInt64 seed) prob = Except.ok s2) :
    handleCreateSolverCast f reg sid seed prob =
      (Outcome.ok (insertSolver reg sid s2), []) ∧
    insertSolver reg sid s2 sid = some s2 ∧
    (∀ k, k ≠ sid → insertSolver reg sid s2 k = reg k) := by
  refine ⟨?_, by simp [insertSolver], fun k hk => by simp [insertSolver, hk]⟩
  simp [handleCreateSolverCast, hnew]

/-- C7 witness: creating twice under id 1 replaces the entry. -/
theorem c7_create_overwrites_witness :
    (insertSolver emptyRegistry 1 rogueSolver) 1 = some rogueSolver ∧
    cFactory.createSolver (int64OfUInt64 7) p0 = Except.ok okSolver ∧
    handleCreateSolverCast cFactory (insertSolver emptyRegistry 1 rogueSolver)
        1 7 p0 =
      (Outcome.ok (insertSolver (insertSolver emptyRegistry 1 rogueSolver)
        1 okSolver), []) :=
  ⟨rfl, rfl,
    (c7_create_overwrites cFactory (insertSolver emptyRegistry 1 rogueSolver)
      1 7 p0 rogueSolver okSolver rfl rfl).1⟩

/-- C8: a failing Ask or Tell on a live solver is propagated as the run's
failure and the registry is returned exactly as it was: the failing
instance keeps its entry and no entry is added, removed, or replaced; no
reply is written and no further line is read. -/
theorem c8_ask_tell_failure_frame :
    (∀ (f : SolverFactory) (reg : Registry) (sid n : Nat) (rest : List Line)
      (s : Solver) (e : String) (g : TrialIdGenerator),
      reg sid = some s → s.ask ⟨n⟩ = (Except.error e, g) →
      runLoop f reg (Line.askCall sid n :: rest) =
        ([Event.read (Line.askCall sid n)], reg, Outcome.error e)) ∧
    (∀ (f : SolverFactory) (reg : Registry) (sid : Nat) (tr : EvaluatedTrial)
      (rest : List Line) (s : Solver) (e : String),
      reg sid = some s → s.tell tr = Except.error e →
      runLoop f reg (Line.tellCall sid tr :: rest) =
        ([Event.read (Line.tellCall sid tr)], reg, Outcome.error e)) := by
  constructor
  · intro f reg sid n rest s e g hreg hask
    simp [runLoop, runOnce, handleAskCall, hreg, hask]
  · intro f reg sid tr rest s e hreg htell
    simp [runLoop, runOnce, handleTellCall, hreg, htell]

/-- C8 witness: ask failure on a live solver leaves its entry in place and
surfaces the error. -/
theorem c8_ask_tell_failure_frame_witness :
    (insertSolver emptyRegistry 2 askFailSolver) 2 = some askFailSolver ∧
    askFailSolver.ask ⟨0⟩ = (Except.error "boom", ⟨0⟩) ∧
    runLoop cFactory (insertSolver emptyRegistry 2 askFailSolver)
        [Line.askCall 2 0] =
      ([Event.read (Line.askCall 2 0)],
       insertSolver emptyRegistry 2 askFailSolver, Outcome.error "boom") :=
  ⟨rfl, rfl,
    c8_ask_tell_failure_frame.1 cFactory (insertSolver emptyRegistry 2 askFailSolver)
      2 0 [] askFailSolver "boom" ⟨0⟩ rfl rfl⟩

/-- C9: DROP_SOLVER_CAST removes the entry when present, is a silent no-op
when absent, never errors, and never replies: the handler returns success
with no output, maps the dropped id to absent, leaves every other id
unchanged, and on an absent id leaves the registry exactly equal. -/
theorem c9_drop_semantics (reg : Registry) (sid : Nat) :
    handleDropSolverCast reg sid = (Outcome.ok (dropSolver reg sid), []) ∧
    dropSolver reg sid sid = none ∧
    (∀ k, k ≠ sid → dropSolver reg sid k = reg k) ∧
    (reg sid = none → dropSolver reg sid = reg) := by
  refine ⟨rfl, by simp [dropSolver], fun k hk => by simp [dropSolver, hk],
    fun h => ?_⟩
  funext k
  by_cases hk : k = sid
  · subst hk; simp [dropSolver, h]
  · simp [dropSolver, hk]

/-- C9 witness: dropping an absent id leaves the registry equal. -/
theorem c9_drop_semantics_witness :
    emptyRegistry 5 = none ∧ dropSolver emptyRegistry 5 = emptyRegistry :=
  ⟨rfl, (c9_drop_semantics emptyRegistry 5).2.2.2 rfl⟩

/-- C10: the decoded unsigned 64-bit random_seed reaches
Factory.CreateSolver reinterpreted as a two's-complement signed 64-bit
integer: the handler's result is exactly the creation function's result at
`int64OfUInt64 seed`, that value is congruent to the seed mod 2^64 and
lies in the signed 64-bit range, and every seed whose value mod 2^64 is at
least 2^63 reaches the factory as a negative number. -/
theorem c10_seed_reinterpret (g : Int → ProblemSpec → Except String Solver)
    (reg : Registry) (sid seed : Nat) (prob : ProblemSpec) :
    (∀ e, g (int64OfUInt64 seed) prob = Except.error e →
      handleCreateSolverCast (mkFactory g) reg sid seed prob =
        (Outcome.error e, [])) ∧
    (∀ s, g (int64OfUInt64 seed) prob = Except.ok s →
      handleCreateSolverCast (mkFactory g) reg sid seed prob =
        (Outcome.ok (insertSolver reg sid s), [])) ∧
    (2 ^ 63 ≤ seed % 2 ^ 64 → int64OfUInt64 seed < 0) ∧
    int64OfUInt64 seed % 2 ^ 64 = (seed : Int) % 2 ^ 64 ∧
    -(2 ^ 63) ≤ int64OfUInt64 seed ∧ int64OfUInt64 seed < 2 ^ 63 := by
  have hm : seed % 2 ^ 64 < 2 ^ 64 := Nat.mod_lt _ (by norm_num)
  refine ⟨fun e he => by simp [handleCreateSolverCast, mkFactory, he],
    fun s hs => by simp [handleCreateSolverCast, mkFactory, hs], ?_, ?_, ?_⟩
  · intro h
    rw [int64OfUInt64, if_neg (by omega)]
    have hc : ((seed % 2 ^ 64 : Nat) : Int) < 2 ^ 64 := by exact_mod_cast hm
    have : ((2 : Int) ^ 64) = 2 ^ 64 := rfl
    omega
  · rw [int64OfUInt64]
    have hcast : ((seed % 2 ^ 64 : Nat) : Int) = (seed : Int) % 2 ^ 64 := by
      push_cast
      ring_nf
    split
    · rw [hcast]
      exact Int.emod_emod_of_dvd _ dvd_rfl
    · rw [Int.emod_sub_cancel, hcast]
      exact Int.emod_emod_of_dvd _ dvd_rfl
  · constructor
    · rw [int64OfUInt64]
      split
      · exact le_trans (by norm_num) (Int.ofNat_nonneg _)
      · next h2 =>
        have hge : ((2 : Int) ^ 63) ≤ ((seed % 2 ^ 64 : Nat) : Int) := by
          exact_mod_cast Nat.le_of_not_lt h2
        omega
    · rw [int64OfUInt64]
      split
      · next h2 =>
        have hlt : ((seed % 2 ^ 64 : Nat) : Int) < 2 ^ 63 := by exact_mod_cast h2
        omega
      · have hc : ((seed % 2 ^ 64 : Nat) : Int) < 2 ^ 64 := by exact_mod_cast hm
        omega

/-- C10 witness: the seed 2^63 reaches the factory as a negative int64 and
the create succeeds with the factory's answer at that value. -/
theorem c10_seed_reinterpret_witness :
    (fun (_ : Int) (_ : ProblemSpec) => Except.ok okSolver :
      Int → ProblemSpec → Except String Solver)
        (int64OfUInt64 (2 ^ 63)) p0 = Except.ok okSolver ∧
    handleCreateSolverCast (mkFactory fun _ _ => Except.ok okSolver)
        emptyRegistry 1 (2 ^ 63) p0 =
      (Outcome.ok (insertSolver emptyRegistry 1 okSolver), []) ∧
    2 ^ 63 ≤ (2 ^ 63 : Nat) % 2 ^ 64 ∧ int64OfUInt64 (2 ^ 63) < 0 := by
  refine ⟨rfl, ?_, by norm_num, ?_⟩
  · exact (c10_seed_reinterpret (fun _ _ => Except.ok okSolver)
      emptyRegistry 1 (2 ^ 63) p0).2.1 okSolver rfl
  · exact (c10_seed_reinterpret (fun _ _ => Except.ok okSolver)
      emptyRegistry 1 (2 ^ 63) p0).2.2.1 (by norm_num)
